import Mathlib

/-!
telegram_bot_go: update relay and interaction state machine

A shallow embedding of `src/main/main.go` (the multi-conversation client) and
of `src/main.go` (the single-conversation client).

* Go `int64` values are integers of `Int`, with the range `[-2^63, 2^63)`
  written out where it matters.
* The process-wide variable `chatId` and the observable effects of `Update`
  (calls of `telegramBotSendText`, lines printed with `fmt.Println`) are
  threaded through `Update` as an explicit `World`.
* The widgets of the `bubbles` library are kept as small records holding the
  state the program reads and writes; the two widget `Update` functions, whose
  bodies are outside the repository, are parameters (`Bubbles`).
* `fmt.Sprintf("%d", _)` and `strconv.ParseInt(_, 10, 64)` belong to the Go
  standard library; they are modelled from their documented behaviour.
-/

namespace TelegramBot

/-! ## Go standard library: decimal formatting and parsing -/

/-- The ASCII character of a decimal digit `d < 10`. -/
def digitChar (d : Nat) : Char := Char.ofNat (48 + d)

/-- Decimal digits of `n`, most significant first, pushed in front of `acc`:
repeated division by ten as in `strconv.FormatUint`. `fuel` bounds the number
of digits; `n + 1` is always enough. -/
def formatBits : Nat → Nat → List Char → List Char
  | 0, _, acc => acc
  | fuel + 1, n, acc =>
    if n < 10 then digitChar n :: acc
    else formatBits fuel (n / 10) (digitChar (n % 10) :: acc)

/-- Decimal text of a natural number (`strconv.FormatUint(n, 10)`). -/
def FormatUint (n : Nat) : List Char := formatBits (n + 1) n []

/-- Decimal text of an integer with a leading `-` for negative values
(`strconv.FormatInt(i, 10)`). -/
def FormatInt (i : Int) : List Char :=
  if i < 0 then '-' :: FormatUint (-i).toNat else FormatUint i.toNat

/-- Go: `fmt.Sprintf("%d", id)` for an `int64` argument. -/
def Sprintf_d (id : Int) : String := String.mk (FormatInt id)

/-- The two errors of package `strconv` (`ErrSyntax`, `ErrRange`). -/
inductive StrconvErr where
  | ErrSyntax
  | ErrRange
  deriving DecidableEq, Repr

/-- Go: `*strconv.NumError`, the function name left out (always `ParseInt`). -/
structure NumError where
  Num : String
  Err : StrconvErr
  deriving DecidableEq, Repr

instance instDecidableEqExcept {ε α : Type} [DecidableEq ε] [DecidableEq α] :
    DecidableEq (Except ε α)
  | .ok a, .ok b => if h : a = b then isTrue (by rw [h]) else isFalse (by simpa using h)
  | .error a, .error b => if h : a = b then isTrue (by rw [h]) else isFalse (by simpa using h)
  | .ok _, .error _ => isFalse (by simp)
  | .error _, .ok _ => isFalse (by simp)

/-- Go: `maxUint64`, the largest value of `uint64`. -/
def maxUint64 : Nat := 18446744073709551615

/-- Go: the loop of `strconv.ParseUint(s, 10, 64)` from the value `n` read so
far. A character that is no decimal digit is a syntax error; a value that
leaves `uint64` is a range error, found at the digit where it happens
(`n >= cutoff` with `cutoff = maxUint64/10 + 1`, then the sum wrapping
around). -/
def parseUintLoop : Nat → List Char → Except StrconvErr Nat
  | n, [] => .ok n
  | n, c :: cs =>
    if 48 ≤ c.toNat ∧ c.toNat ≤ 57 then
      if n ≥ maxUint64 / 10 + 1 then .error .ErrRange
      else if n * 10 + (c.toNat - 48) > maxUint64 then .error .ErrRange
      else parseUintLoop (n * 10 + (c.toNat - 48)) cs
    else .error .ErrSyntax

/-- Go: `strconv.ParseUint(s, 10, 64)`: the empty string is a syntax error
(base 10 admits no underscore and no base marker). -/
def ParseUint (cs : List Char) : Except StrconvErr Nat :=
  match cs with
  | [] => .error .ErrSyntax
  | _ :: _ => parseUintLoop 0 cs

/-- Go: `strconv.ParseInt(s, 10, 64)`. The empty string is a syntax error; one
leading sign is picked off; the rest goes through `ParseUint`; a syntax error
is returned as it is; a range error of `ParseUint` comes with the value
`maxUint64`, which fails the range test that follows as every value outside
`[-2^63, 2^63 - 1]` does. The value Go returns next to an error is dropped:
the caller ignores it. -/
def ParseInt (s : String) : Except NumError Int :=
  match s.data with
  | [] => .error ⟨s, .ErrSyntax⟩
  | c :: cs =>
    let neg : Bool := c = '-'
    let body : List Char := if c = '+' ∨ c = '-' then cs else c :: cs
    match ParseUint body with
    | .error .ErrSyntax => .error ⟨s, .ErrSyntax⟩
    | .error .ErrRange => .error ⟨s, .ErrRange⟩
    | .ok un =>
      if neg = false ∧ un ≥ 2 ^ 63 then .error ⟨s, .ErrRange⟩
      else if neg = true ∧ un > 2 ^ 63 then .error ⟨s, .ErrRange⟩
      else .ok (if neg then -(un : Int) else (un : Int))

/-! ## Library types used by the program -/

/-- Go: `lipgloss.Style`. The program only calls `Render`; what it adds to the
text depends on the terminal and is left open. -/
structure Style where
  Render : String → String

/-- Identity of a Go channel `chan telegramUpdate`. -/
abbrev Chan := Nat

/-- Go: `tgbotapi.User`, the fields read by `fetchHistory`. -/
structure tgbotapi.User where
  FirstName : String
  LastName : String
  deriving DecidableEq, Repr

/-- Go: `tgbotapi.Chat`, the field read by `fetchHistory`. -/
structure tgbotapi.Chat where
  ID : Int
  deriving DecidableEq, Repr

/-- Go: `tgbotapi.Message`, the fields read by `fetchHistory`. `From` and
`Chat` are pointers of the library and may be `nil`. -/
structure tgbotapi.Message where
  Text : String
  From : Option tgbotapi.User
  Chat : Option tgbotapi.Chat
  deriving DecidableEq, Repr

/-- Go: `tgbotapi.Update`; `Message` is a pointer that may be `nil`. -/
structure tgbotapi.Update where
  Message : Option tgbotapi.Message
  deriving DecidableEq, Repr

/-- Go: an element of `config.Ids` (fields `Title` and `Id`, an `int64`). -/
structure config.ChatID where
  Title : String
  Id : Int
  deriving DecidableEq, Repr

/-- Go: `bubbles/viewport.Model`, the state the program touches. -/
structure viewport.Model where
  Width : Int
  Height : Int
  content : String
  YOffset : Int
  deriving DecidableEq, Repr

/-- Go: `viewport.New(width, height)`. -/
def viewport.New (width height : Int) : viewport.Model :=
  { Width := width, Height := height, content := "", YOffset := 0 }

/-- Number of lines of the content: one more than its line breaks. -/
def viewport.Model.lineCount (v : viewport.Model) : Int :=
  ((v.content.data.count '\n' : Nat) : Int) + 1

/-- Go: `viewport.Model.GotoBottom`. -/
def viewport.Model.GotoBottom (v : viewport.Model) : viewport.Model :=
  { v with YOffset := max 0 (v.lineCount - v.Height) }

/-- Go: `viewport.Model.SetContent`. -/
def viewport.Model.SetContent (v : viewport.Model) (s : String) : viewport.Model :=
  let v1 := { v with content := s }
  if v1.YOffset > v1.lineCount - 1 then v1.GotoBottom else v1

/-- Go: `bubbles/textarea.Model`, the state the program touches. -/
structure textarea.Model where
  value : String
  Placeholder : String
  Prompt : String
  CharLimit : Int
  width : Int
  height : Int
  ShowLineNumbers : Bool
  focus : Bool
  cursorLineStyled : Bool
  insertNewlineEnabled : Bool
  deriving DecidableEq, Repr

/-- Go: `textarea.New()`: an empty input without focus. Every other field is
overwritten by `initialModel`, so its starting value is immaterial. -/
def textarea.New : textarea.Model :=
  { value := "", Placeholder := "", Prompt := "", CharLimit := 0, width := 0, height := 0,
    ShowLineNumbers := true, focus := false, cursorLineStyled := true,
    insertNewlineEnabled := true }

/-- Go: `textarea.Model.Value`. -/
def textarea.Model.Value (t : textarea.Model) : String := t.value

/-- Go: `textarea.Model.Reset`: the input goes back to no input. -/
def textarea.Model.Reset (t : textarea.Model) : textarea.Model := { t with value := "" }

/-- Go: `textarea.Model.SetWidth`. -/
def textarea.Model.SetWidth (t : textarea.Model) (w : Int) : textarea.Model :=
  { t with width := w }

/-- Go: `textarea.Model.SetHeight`. -/
def textarea.Model.SetHeight (t : textarea.Model) (h : Int) : textarea.Model :=
  { t with height := h }

/-- Go: `type item struct`. -/
structure item where
  title : String
  id : String
  deriving DecidableEq, Repr

/-- Go: `func (i item) Title() string`. -/
def item.Title (i : item) : String := i.title

/-- Go: `func (i item) Description() string`. -/
def item.Description (i : item) : String := i.id

/-- Go: `func (i item) FilterValue() string`. -/
def item.FilterValue (i : item) : String := i.title

/-- Go: `bubbles/list.Model`, the state the program touches: the items (every
one an `item`), the highlighted position, the size and the title. -/
structure list.Model where
  items : List item
  index : Nat
  width : Int
  height : Int
  Title : String
  deriving DecidableEq, Repr

/-- Go: `list.New(items, delegate, width, height)`. -/
def list.New (items : List item) (width height : Int) : list.Model :=
  { items := items, index := 0, width := width, height := height, Title := "List" }

/-- Go: `list.Model.SelectedItem`: the highlighted item, `nil` when there is
none. -/
def list.Model.SelectedItem (l : list.Model) : Option item := l.items.get? l.index

/-- Go: `list.Model.SetSize`. -/
def list.Model.SetSize (l : list.Model) (width height : Int) : list.Model :=
  { l with width := width, height := height }

/-! ## Messages, commands and effects -/

/-- Go: `type telegramUpdate struct`. -/
structure telegramUpdate where
  Content : String
  Name : String
  deriving DecidableEq, Repr

/-- Go: the values of `tea.Msg` that `Update` tells apart. `KeyMsg` carries
`msg.String()`; `other` is any message of another type. -/
inductive Msg where
  | WindowSizeMsg (Width Height : Int)
  | KeyMsg (key : String)
  | BlinkMsg
  | telegramUpdate (u : TelegramBot.telegramUpdate)
  | other (tag : Nat)
  deriving DecidableEq, Repr

/-- Go: the values of `tea.Cmd` the program returns. `widget` is a command
handed back by a widget of the library. -/
inductive Cmd where
  | nil
  | Quit
  | Blink
  | fetchHistory (sub : Chan)
  | waitForActivity (sub : Chan)
  | widget (tag : Nat)
  deriving DecidableEq, Repr

/-- What `fmt.Println` wrote: a text, or the word `Error:` and an error. -/
inductive Printed where
  | text (s : String)
  | error (e : NumError)
  deriving DecidableEq, Repr

/-- Observable effects of the interaction loop: the calls of
`telegramBotSendText` and the lines printed, oldest first. -/
structure Effects where
  sent : List (Int × String)
  printed : List Printed
  deriving DecidableEq, Repr

/-- Process-wide state of `src/main/main.go` around a call of `Update`: the
variable `chatId` and the effects so far. -/
structure World extends Effects where
  chatId : Int
  deriving DecidableEq, Repr

/-- Go: `var chatId int64` has the zero value until a conversation is
selected. -/
def chatId_init : Int := 0

/-- The `Update` functions of the widgets, which lie outside the repository. -/
structure Bubbles where
  listUpdate : list.Model → Msg → list.Model × Cmd
  textareaUpdate : textarea.Model → Msg → textarea.Model × Cmd

/-- Go: `telegramBotSendText(chatID, botMsg)`: one `bot.Send`. -/
def telegramBotSendText (chatID : Int) (botMsg : String) (e : Effects) : Effects :=
  { e with sent := e.sent ++ [(chatID, botMsg)] }

/-- Go: `docStyle.GetFrameSize()` for `Margin(1, 2)`: horizontal 4, vertical 2. -/
def docStyle_GetFrameSize : Int × Int := (4, 2)

/-- The static welcome message put into the viewport by `initialModel`. -/
def welcome : String := "Welcome to the chat room!\nType a message and press Enter to send."

/-- The text area both variants of `initialModel` build. -/
def initialTextarea : textarea.Model :=
  let ta := textarea.New
  let ta := { ta with Placeholder := "Send a message..." }
  let ta := { ta with focus := true }
  let ta := { ta with Prompt := "┃ " }
  let ta := { ta with CharLimit := 280 }
  let ta := ta.SetWidth 30
  let ta := ta.SetHeight 3
  let ta := { ta with cursorLineStyled := false }
  let ta := { ta with ShowLineNumbers := false }
  { ta with insertNewlineEnabled := false }

/-! ## `src/main/main.go`: selection of a conversation, then chat -/

/-- Go: `type model struct` of `src/main/main.go`. -/
structure model where
  viewport : viewport.Model
  messages : List String
  textarea : textarea.Model
  senderStyle : Style
  err : Option String
  sub : Chan
  list : list.Model
  choice : String
  id : String

/-- Go: `initialModel()`. The configured entries `chatIDs`, the fresh channel
and the sender style are arguments. -/
def initialModel (chatIDs : List config.ChatID) (sub : Chan) (senderStyle : Style) : model :=
  let ta := initialTextarea
  let vp := (viewport.New 80 5).SetContent welcome
  let items := chatIDs.foldl
    (fun items id => items ++ [({ title := id.Title, id := Sprintf_d id.Id } : item)]) []
  let m : model :=
    { textarea := ta, messages := [], viewport := vp, senderStyle := senderStyle,
      err := none, sub := sub, list := list.New items 0 0, choice := "", id := "" }
  { m with list := { m.list with Title := "Select a chatroom" } }

/-- Go: `func (m model) Init() tea.Cmd`, the batch as a list. -/
def model.Init (m : model) : List Cmd :=
  [Cmd.Blink, Cmd.fetchHistory m.sub, Cmd.waitForActivity m.sub]

/-- What a call of `Update` returns and leaves behind. -/
structure Result where
  model : model
  cmd : Cmd
  world : World

/-- Go: `func (m model) Update(msg tea.Msg) (tea.Model, tea.Cmd)` of
`src/main/main.go`. -/
def Update (lib : Bubbles) (m : model) (msg : Msg) (w : World) : Result :=
  match msg with
  | .WindowSizeMsg Width Height =>
    if m.choice = "" then
      let h := docStyle_GetFrameSize.1
      let v := docStyle_GetFrameSize.2
      ⟨{ m with list := m.list.SetSize (Width - h) (Height - v) }, .nil, w⟩
    else
      ⟨{ m with viewport := { m.viewport with Width := Width },
                textarea := m.textarea.SetWidth Width }, .nil, w⟩
  | .KeyMsg key =>
    if key = "ctrl+c" then
      ⟨m, .Quit, { w with printed := w.printed ++ [Printed.text m.textarea.Value] }⟩
    else if key = "enter" then
      if m.choice ≠ "" then
        let v := m.textarea.Value
        if v = "" then
          let messages := m.messages ++ [m.senderStyle.Render "Server: Don't send empty messages."]
          let vp := m.viewport.SetContent (String.intercalate "\n" messages)
          let ta := m.textarea.Reset
          ⟨{ m with messages := messages, viewport := vp.GotoBottom, textarea := ta }, .nil, w⟩
        else
          let messages := m.messages ++ [m.senderStyle.Render "You: " ++ v]
          let vp := m.viewport.SetContent (String.intercalate "\n" messages)
          let ta := m.textarea.Reset
          ⟨{ m with messages := messages, viewport := vp.GotoBottom, textarea := ta }, .nil,
            { w with toEffects := telegramBotSendText w.chatId v w.toEffects }⟩
      else
        match m.list.SelectedItem with
        | some i =>
          let m1 := { m with choice := i.title, id := i.id }
          match ParseInt i.id with
          | .error err => ⟨m1, .nil, { w with printed := w.printed ++ [Printed.error err] }⟩
          | .ok id => ⟨m1, .nil, { w with chatId := id }⟩
        | none => ⟨m, .nil, w⟩
    else
      if m.choice = "" then
        let r := lib.listUpdate m.list msg
        ⟨{ m with list := r.1 }, r.2, w⟩
      else
        let r := lib.textareaUpdate m.textarea msg
        ⟨{ m with textarea := r.1 }, r.2, w⟩
  | .BlinkMsg =>
    let r := lib.textareaUpdate m.textarea msg
    ⟨{ m with textarea := r.1 }, r.2, w⟩
  | .telegramUpdate u =>
    let messages := m.messages ++ [m.senderStyle.Render (u.Name ++ ": ") ++ u.Content]
    let vp := m.viewport.SetContent (String.intercalate "\n" messages)
    ⟨{ m with messages := messages, viewport := vp.GotoBottom }, .waitForActivity m.sub, w⟩
  | .other _ =>
    if m.choice = "" then
      let r := lib.listUpdate m.list msg
      ⟨{ m with list := r.1 }, r.2, w⟩
    else
      let r := lib.textareaUpdate m.textarea msg
      ⟨{ m with textarea := r.1 }, r.2, w⟩

/-- What one turn of the loop of `fetchHistory` does: it sends an update on
`sub`, sends nothing, or stops the program with a nil pointer dereference. -/
inductive Relayed where
  | send (u : telegramUpdate)
  | skip
  | panic
  deriving DecidableEq, Repr

/-- Go: the body of the loop of `fetchHistory` for one raw update, read
against the current value of `chatId`. The test dereferences
`update.Message.Chat` once `Message` is not `nil`; the send dereferences
`update.Message.From` once the chat id matches. -/
def fetchHistory_step (chatId : Int) (update : tgbotapi.Update) : Relayed :=
  match update.Message with
  | none => .skip
  | some msg =>
    match msg.Chat with
    | none => .panic
    | some chat =>
      if chat.ID = chatId then
        match msg.From with
        | none => .panic
        | some sender =>
          .send { Content := msg.Text, Name := sender.FirstName ++ " " ++ sender.LastName }
      else .skip

/-- Go: `fetchHistory(sub)` over a finite run of the `updates` channel, each
raw update paired with the value `chatId` has when the loop examines it: the
values sent on `sub`, in order, and whether the loop ended in a panic (nothing
is examined after it). -/
def fetchHistory : List (Int × tgbotapi.Update) → List telegramUpdate × Bool
  | [] => ([], false)
  | p :: rest =>
    match fetchHistory_step p.1 p.2 with
    | .send u => (u :: (fetchHistory rest).1, (fetchHistory rest).2)
    | .skip => fetchHistory rest
    | .panic => ([], true)

/-- The updates one turn of the loop sends: one or none. -/
def Relayed.sent : Relayed → List telegramUpdate
  | .send u => [u]
  | _ => []

/-- The interaction loop: `Update` applied to the messages one at a time, the
returned commands dropped. -/
def runUpdates (lib : Bubbles) (m : model) (w : World) : List Msg → model × World
  | [] => (m, w)
  | msg :: rest =>
    let r := Update lib m msg w
    runUpdates lib r.model r.world rest

/-- The values `chatId` has before the first message and after each one. -/
def chatIdTrace (lib : Bubbles) (m : model) (w : World) : List Msg → List Int
  | [] => [w.chatId]
  | msg :: rest =>
    let r := Update lib m msg w
    w.chatId :: chatIdTrace lib r.model r.world rest

/-- Number of places of a trace where the value differs from the one before. -/
def changes : List Int → Nat
  | a :: b :: rest => (if a = b then 0 else 1) + changes (b :: rest)
  | _ => 0

/-- The lines the inbound updates among `msgs` put into the transcript. -/
def inboundLines (style : Style) : List Msg → List String
  | [] => []
  | .telegramUpdate u :: rest => (style.Render (u.Name ++ ": ") ++ u.Content) :: inboundLines style rest
  | _ :: rest => inboundLines style rest

/-- A style that renders a text as it is (no colour support in the terminal). -/
def plainStyle : Style := ⟨fun s => s⟩

/-- A stand-in for the widgets that moves the highlighted list position with
the keys `down` and `up` and appends any other key to the composer. -/
def keyNav : Bubbles where
  listUpdate := fun l msg =>
    match msg with
    | .KeyMsg "down" => ({ l with index := min (l.index + 1) (l.items.length - 1) }, .nil)
    | .KeyMsg "up" => ({ l with index := l.index - 1 }, .nil)
    | _ => (l, .nil)
  textareaUpdate := fun t msg =>
    match msg with
    | .KeyMsg key => ({ t with value := t.value ++ key }, .nil)
    | _ => (t, .nil)

/-! ## `src/main.go`: one fixed conversation -/

/-- Go: `type model struct` of `src/main.go`. -/
structure Single.model where
  viewport : viewport.Model
  messages : List String
  textarea : textarea.Model
  senderStyle : Style
  err : Option String
  sub : Chan

/-- Go: `initialModel()` of `src/main.go`. -/
def Single.initialModel (sub : Chan) (senderStyle : Style) : Single.model :=
  let ta := initialTextarea
  let vp := (viewport.New 30 5).SetContent welcome
  { textarea := ta, messages := [], viewport := vp, senderStyle := senderStyle,
    err := none, sub := sub }

/-- What a call of `Update` of `src/main.go` returns and leaves behind. -/
structure Single.Result where
  model : Single.model
  cmd : Cmd
  effects : Effects

/-- Go: `func (m model) Update(msg tea.Msg) (tea.Model, tea.Cmd)` of
`src/main.go`. The identifier `chatID` is declared outside the file and is
an argument. -/
def Single.Update (chatID : Int) (lib : Bubbles) (m : Single.model) (msg : Msg) (e : Effects) :
    Single.Result :=
  match msg with
  | .WindowSizeMsg Width _ =>
    ⟨{ m with viewport := { m.viewport with Width := Width },
              textarea := m.textarea.SetWidth Width }, .nil, e⟩
  | .KeyMsg key =>
    if key = "esc" ∨ key = "ctrl+c" then
      ⟨m, .Quit, { e with printed := e.printed ++ [Printed.text m.textarea.Value] }⟩
    else if key = "enter" then
      let v := m.textarea.Value
      if v = "" then
        let messages := m.messages ++ [m.senderStyle.Render "Server: Don't send empty messages."]
        let vp := m.viewport.SetContent (String.intercalate "\n" messages)
        let ta := m.textarea.Reset
        ⟨{ m with messages := messages, viewport := vp.GotoBottom, textarea := ta }, .nil, e⟩
      else
        let messages := m.messages ++ [m.senderStyle.Render "You: " ++ v]
        let vp := m.viewport.SetContent (String.intercalate "\n" messages)
        let ta := m.textarea.Reset
        ⟨{ m with messages := messages, viewport := vp.GotoBottom, textarea := ta }, .nil,
          telegramBotSendText chatID v e⟩
    else
      let r := lib.textareaUpdate m.textarea msg
      ⟨{ m with textarea := r.1 }, r.2, e⟩
  | .BlinkMsg =>
    let r := lib.textareaUpdate m.textarea msg
    ⟨{ m with textarea := r.1 }, r.2, e⟩
  | .telegramUpdate u =>
    let messages := m.messages ++ [m.senderStyle.Render (u.Name ++ ": ") ++ u.Content]
    let vp := m.viewport.SetContent (String.intercalate "\n" messages)
    ⟨{ m with messages := messages, viewport := vp.GotoBottom }, .waitForActivity m.sub, e⟩
  | .other _ => ⟨m, .nil, e⟩

/-- Messages that put a line into the transcript in chat mode: an inbound
update and the key `enter`. -/
def appendsLine : Msg → Bool
  | .telegramUpdate _ => true
  | .KeyMsg key => key = "enter"
  | _ => false

/-- The line an inbound update is shown as. -/
def inboundLine (style : Style) (u : telegramUpdate) : String :=
  style.Render (u.Name ++ ": ") ++ u.Content

/-! # Theorems -/

/-! ### Round trip of the decimal text -/

theorem digitChar_toNat (d : Nat) (hd : d < 10) : (digitChar d).toNat = 48 + d := by
  unfold digitChar
  interval_cases d <;> rfl

theorem digitChar_ne_sign (d : Nat) (hd : d < 10) :
    digitChar d ≠ '+' ∧ digitChar d ≠ '-' := by
  unfold digitChar
  interval_cases d <;> decide

theorem parseUintLoop_append (xs ys : List Char) (a : Nat) :
    parseUintLoop a (xs ++ ys) = (parseUintLoop a xs).bind (fun b => parseUintLoop b ys) := by
  induction xs generalizing a with
  | nil => simp [parseUintLoop, Except.bind]
  | cons c cs ih =>
    simp only [List.cons_append, parseUintLoop]
    split_ifs
    · rfl
    · rfl
    · exact ih _
    · rfl

theorem parseUintLoop_digit (a d : Nat) (hd : d < 10) (ha : a * 10 + d ≤ maxUint64) :
    parseUintLoop a [digitChar d] = .ok (a * 10 + d) := by
  have h1 : 48 ≤ 48 + d ∧ 48 + d ≤ 57 := by omega
  have h2 : ¬ (a ≥ maxUint64 / 10 + 1) := by unfold maxUint64 at *; omega
  have h3 : ¬ (a * 10 + d > maxUint64) := by omega
  have h4 : 48 + d - 48 = d := by omega
  simp only [parseUintLoop, digitChar_toNat d hd, h1, h2, h4, h3, and_self, if_true, if_false]

theorem formatBits_acc (fuel n : Nat) (acc : List Char) :
    formatBits fuel n acc = formatBits fuel n [] ++ acc := by
  induction fuel generalizing n acc with
  | zero => simp [formatBits]
  | succ k ih =>
    simp only [formatBits]
    split
    · simp
    · rw [ih (n / 10) (digitChar (n % 10) :: acc), ih (n / 10) [digitChar (n % 10)]]
      simp

/-- With enough fuel the digits of a `uint64` are not empty, start with no
sign and read back to the number. -/
theorem parseUintLoop_formatBits (fuel n : Nat) (h : n < fuel) (hn : n ≤ maxUint64) :
    formatBits fuel n [] ≠ [] ∧
    (∀ c ∈ (formatBits fuel n []).head?, c ≠ '+' ∧ c ≠ '-') ∧
    parseUintLoop 0 (formatBits fuel n []) = .ok n := by
  induction fuel generalizing n with
  | zero => omega
  | succ k ih =>
    simp only [formatBits]
    by_cases h10 : n < 10
    · simp only [h10, if_true]
      refine ⟨by simp, ?_, ?_⟩
      · intro c hc
        simp only [List.head?_cons, Option.mem_def, Option.some.injEq] at hc
        subst hc
        exact digitChar_ne_sign n h10
      · have := parseUintLoop_digit 0 n h10 (by omega)
        simpa using this
    · simp only [h10, if_false]
      have hk : n / 10 < k := by omega
      obtain ⟨hne, hhead, hval⟩ := ih (n / 10) hk (by omega)
      rw [formatBits_acc]
      refine ⟨by simp, ?_, ?_⟩
      · intro c hc
        apply hhead c
        cases hfb : formatBits k (n / 10) [] with
        | nil => exact absurd hfb hne
        | cons x xs =>
          rw [hfb] at hc
          simpa using hc
      · rw [parseUintLoop_append, hval]
        have hm : n % 10 < 10 := Nat.mod_lt _ (by decide)
        have hsum : n / 10 * 10 + n % 10 = n := by omega
        have := parseUintLoop_digit (n / 10) (n % 10) hm (by omega)
        rw [hsum] at this
        exact this

theorem ParseUint_FormatUint (n : Nat) (hn : n ≤ maxUint64) :
    ParseUint (FormatUint n) = .ok n ∧
    (∀ c ∈ (FormatUint n).head?, c ≠ '+' ∧ c ≠ '-') := by
  obtain ⟨hne, hhead, hval⟩ := parseUintLoop_formatBits (n + 1) n (Nat.lt_succ_self n) hn
  refine ⟨?_, hhead⟩
  unfold FormatUint ParseUint
  cases hfb : formatBits (n + 1) n [] with
  | nil => exact absurd hfb hne
  | cons x xs => simpa [hfb] using hval

/-- Helper shared by the selection transition and the round trip: the decimal
text of an `int64` parses back to it. -/
theorem ParseInt_Sprintf_d (id : Int) (hlo : -(2 : Int) ^ 63 ≤ id) (hhi : id < 2 ^ 63) :
    ParseInt (Sprintf_d id) = .ok id := by
  unfold ParseInt Sprintf_d FormatInt
  by_cases hneg : id < 0
  · obtain ⟨k, rfl⟩ : ∃ k : Nat, id = -(k : Int) := ⟨(-id).toNat, by omega⟩
    have hk : (-(-(k : Int))).toNat = k := by omega
    obtain ⟨hval, -⟩ := ParseUint_FormatUint k (by unfold maxUint64; omega)
    simp only [hneg, if_true, hk]
    simp [hval]
    omega
  · obtain ⟨k, rfl⟩ : ∃ k : Nat, id = (k : Int) := ⟨id.toNat, by omega⟩
    obtain ⟨hval, hhead⟩ := ParseUint_FormatUint k (by unfold maxUint64; omega)
    simp only [hneg, if_false, Int.toNat_ofNat]
    cases hfu : FormatUint k with
    | nil => simp [hfu, ParseUint] at hval
    | cons c cs =>
      have hc := hhead c (by simp [hfu])
      rw [hfu] at hval
      simp [hc.1, hc.2, hval]
      omega

/-! ### Helper lemmas on `initialModel` and `Update` -/

theorem foldl_append_items (chatIDs : List config.ChatID) (acc : List item) :
    chatIDs.foldl
      (fun items id => items ++ [({ title := id.Title, id := Sprintf_d id.Id } : item)]) acc
      = acc ++ chatIDs.map (fun id => ({ title := id.Title, id := Sprintf_d id.Id } : item)) := by
  induction chatIDs generalizing acc with
  | nil => simp
  | cons c cs ih => simp [List.foldl_cons, ih]

theorem initialModel_items (chatIDs : List config.ChatID) (sub : Chan) (style : Style) :
    (initialModel chatIDs sub style).list.items
      = chatIDs.map (fun id => ({ title := id.Title, id := Sprintf_d id.Id } : item)) := by
  simp [initialModel, list.New, foldl_append_items]

theorem initialModel_fields (chatIDs : List config.ChatID) (sub : Chan) (style : Style) :
    (initialModel chatIDs sub style).messages = [] ∧
    (initialModel chatIDs sub style).viewport.content = welcome ∧
    (initialModel chatIDs sub style).choice = "" ∧
    (initialModel chatIDs sub style).id = "" := by
  refine ⟨rfl, ?_, rfl, rfl⟩
  simp only [initialModel, viewport.Model.SetContent]
  split <;> rfl

/-- In chat mode no message changes `choice`, `chatId`, the style or the
channel. -/
theorem Update_chat_mode (lib : Bubbles) (m : model) (msg : Msg) (w : World)
    (hmode : m.choice ≠ "") :
    (Update lib m msg w).model.choice = m.choice ∧
    (Update lib m msg w).world.chatId = w.chatId ∧
    (Update lib m msg w).model.senderStyle = m.senderStyle ∧
    (Update lib m msg w).model.sub = m.sub := by
  cases msg with
  | WindowSizeMsg W H => simp [Update, hmode]
  | KeyMsg key =>
    simp only [Update, hmode, ne_eq, not_false_eq_true, if_true, if_false]
    split_ifs <;> simp [telegramBotSendText]
  | BlinkMsg => simp [Update]
  | telegramUpdate u => simp [Update]
  | other t => simp [Update, hmode]

/-- Every message leaves the transcript as it is or puts one line at its end. -/
theorem Update_messages (lib : Bubbles) (m : model) (msg : Msg) (w : World) :
    ∃ added : List String,
      (Update lib m msg w).model.messages = m.messages ++ added ∧ added.length ≤ 1 := by
  cases msg with
  | WindowSizeMsg W H =>
    refine ⟨[], ?_, by simp⟩
    simp only [Update]
    split_ifs <;> simp
  | KeyMsg key =>
    simp only [Update]
    split_ifs
    · exact ⟨[], by simp, by simp⟩
    · exact ⟨_, rfl, by simp⟩
    · exact ⟨_, rfl, by simp⟩
    · refine ⟨[], ?_, by simp⟩
      split
      · split <;> simp
      · simp
    · exact ⟨[], by simp, by simp⟩
    · exact ⟨[], by simp, by simp⟩
  | BlinkMsg => exact ⟨[], by simp [Update], by simp⟩
  | telegramUpdate u => exact ⟨_, rfl, by simp⟩
  | other t =>
    refine ⟨[], ?_, by simp⟩
    simp only [Update]
    split_ifs <;> simp

theorem chatIdTrace_cons (lib : Bubbles) (m : model) (w : World) (msgs : List Msg) :
    ∃ t, chatIdTrace lib m w msgs = w.chatId :: t := by
  cases msgs with
  | nil => exact ⟨[], rfl⟩
  | cons msg rest => exact ⟨_, rfl⟩

theorem changes_cons_trace (lib : Bubbles) (m : model) (w : World) (msgs : List Msg) (a : Int) :
    changes (a :: chatIdTrace lib m w msgs)
      = (if a = w.chatId then 0 else 1) + changes (chatIdTrace lib m w msgs) := by
  obtain ⟨t, ht⟩ := chatIdTrace_cons lib m w msgs
  rw [ht]
  rfl

/-- Once `choice` is set, `chatId` never changes again. -/
theorem changes_chat_mode (lib : Bubbles) (m : model) (w : World) (msgs : List Msg)
    (hmode : m.choice ≠ "") : changes (chatIdTrace lib m w msgs) = 0 := by
  induction msgs generalizing m w with
  | nil => rfl
  | cons msg rest ih =>
    obtain ⟨hc, hid, -, -⟩ := Update_chat_mode lib m msg w hmode
    simp only [chatIdTrace]
    rw [changes_cons_trace, ih _ _ (by rw [hc]; exact hmode), hid]
    simp

/-- In Selecting mode, with every item titled and a list widget that brings
in no item of its own, one message either sets `choice` or keeps the mode, the
titled items and `chatId`. -/
theorem Update_select_mode (lib : Bubbles)
    (hlib : ∀ l msg, ∀ i ∈ (lib.listUpdate l msg).1.items, i ∈ l.items)
    (m : model) (msg : Msg) (w : World) (hmode : m.choice = "")
    (htitled : ∀ i ∈ m.list.items, i.title ≠ "") :
    (Update lib m msg w).model.choice ≠ "" ∨
    ((Update lib m msg w).model.choice = "" ∧
      (∀ i ∈ (Update lib m msg w).model.list.items, i.title ≠ "") ∧
      (Update lib m msg w).world.chatId = w.chatId) := by
  have hkeep : ∀ msg, ∀ i ∈ (lib.listUpdate m.list msg).1.items, i.title ≠ "" :=
    fun msg i hi => htitled i (hlib _ _ i hi)
  cases msg with
  | WindowSizeMsg W H =>
    right
    simpa [Update, hmode, list.Model.SetSize] using htitled
  | KeyMsg key =>
    have hne : ¬ ("enter" = "ctrl+c") := by decide
    by_cases h1 : key = "ctrl+c"
    · right
      subst h1
      simpa [Update, hmode] using htitled
    · by_cases h2 : key = "enter"
      · subst h2
        cases hsel : m.list.SelectedItem with
        | none =>
          right
          simpa [Update, hmode, hsel, hne] using htitled
        | some i =>
          left
          have hi : i.title ≠ "" := htitled i (List.get?_mem hsel)
          simp only [Update, hmode, hsel, hne, ne_eq, not_true_eq_false, if_false, if_true]
          split <;> exact hi
      · right
        simpa [Update, hmode, h1, h2] using hkeep (.KeyMsg key)
  | BlinkMsg =>
    right
    simpa [Update, hmode] using htitled
  | telegramUpdate u =>
    right
    simpa [Update, hmode] using htitled
  | other t =>
    right
    simpa [Update, hmode] using hkeep (.other t)

theorem changes_select_mode (lib : Bubbles)
    (hlib : ∀ l msg, ∀ i ∈ (lib.listUpdate l msg).1.items, i ∈ l.items)
    (m : model) (w : World) (msgs : List Msg) (hmode : m.choice = "")
    (htitled : ∀ i ∈ m.list.items, i.title ≠ "") :
    changes (chatIdTrace lib m w msgs) ≤ 1 := by
  induction msgs generalizing m w with
  | nil => simp [chatIdTrace, changes]
  | cons msg rest ih =>
    simp only [chatIdTrace]
    rw [changes_cons_trace]
    rcases Update_select_mode lib hlib m msg w hmode htitled with h | ⟨hc, ht, hid⟩
    · rw [changes_chat_mode lib _ _ rest h]
      split <;> simp
    · have := ih (Update lib m msg w).model (Update lib m msg w).world hc ht
      rw [hid]
      simpa using this

/-- Where every configured entry has a title, `chatId` changes at most once
along any run from `initialModel`, for a list widget that brings in no item
of its own. -/
theorem changes_titled_entries (lib : Bubbles)
    (hlib : ∀ l msg, ∀ i ∈ (lib.listUpdate l msg).1.items, i ∈ l.items)
    (chatIDs : List config.ChatID) (htitles : ∀ e ∈ chatIDs, e.Title ≠ "")
    (sub : Chan) (style : Style) (w : World) (msgs : List Msg) :
    changes (chatIdTrace lib (initialModel chatIDs sub style) w msgs) ≤ 1 := by
  apply changes_select_mode lib hlib _ w msgs (initialModel_fields chatIDs sub style).2.2.1
  intro i hi
  rw [initialModel_items] at hi
  obtain ⟨e, he, rfl⟩ := List.mem_map.mp hi
  exact htitles e he

/-- No message brings an item into the list, for a list widget that brings in
none of its own. -/
theorem Update_items (lib : Bubbles)
    (hlib : ∀ l msg, ∀ i ∈ (lib.listUpdate l msg).1.items, i ∈ l.items)
    (m : model) (msg : Msg) (w : World) :
    ∀ i ∈ (Update lib m msg w).model.list.items, i ∈ m.list.items := by
  cases msg with
  | WindowSizeMsg W H =>
    simp only [Update]
    split_ifs <;> simp [list.Model.SetSize]
  | KeyMsg key =>
    simp only [Update]
    split_ifs
    · simp
    · simp
    · simp
    · split
      · split <;> simp
      · simp
    · exact hlib _ _
    · simp
  | BlinkMsg => simp [Update]
  | telegramUpdate u => simp [Update]
  | other t =>
    simp only [Update]
    split_ifs
    · exact hlib _ _
    · simp

/-- Along any run from `initialModel` over `int64` identifiers, the
highlighted item, when there is one, parses: the selection never meets an
identifier that `strconv.ParseInt` rejects. -/
theorem selected_item_parses (lib : Bubbles)
    (hlib : ∀ l msg, ∀ i ∈ (lib.listUpdate l msg).1.items, i ∈ l.items)
    (chatIDs : List config.ChatID)
    (hrange : ∀ e ∈ chatIDs, -(2 : Int) ^ 63 ≤ e.Id ∧ e.Id < 2 ^ 63)
    (sub : Chan) (style : Style) (w : World) (msgs : List Msg) (i : item)
    (hsel : (runUpdates lib (initialModel chatIDs sub style) w msgs).1.list.SelectedItem
      = some i) :
    ∃ e ∈ chatIDs, ParseInt i.id = .ok e.Id := by
  have hsub : ∀ (m : model) (w : World) (msgs : List Msg),
      ∀ i ∈ (runUpdates lib m w msgs).1.list.items, i ∈ m.list.items := by
    intro m w msgs
    induction msgs generalizing m w with
    | nil => simp [runUpdates]
    | cons msg rest ih =>
      intro i hi
      exact Update_items lib hlib m msg w i (ih _ _ i hi)
  have hi := hsub _ w msgs i (List.get?_mem hsel)
  rw [initialModel_items] at hi
  obtain ⟨e, he, rfl⟩ := List.mem_map.mp hi
  exact ⟨e, he, ParseInt_Sprintf_d e.Id (hrange e he).1 (hrange e he).2⟩

/-- In Selecting mode the key `enter` on a highlighted item whose identifier
parses sets `chatId` to the parsed value and `choice` and `id` to the title
and identifier of the item, prints and sends nothing, and leaves the
transcript and the viewport as they were. -/
theorem Update_enter_selects (lib : Bubbles) (m : model) (w : World) (i : item) (n : Int)
    (hmode : m.choice = "") (hsel : m.list.SelectedItem = some i)
    (hparse : ParseInt i.id = .ok n) :
    (Update lib m (.KeyMsg "enter") w).world.chatId = n ∧
    (Update lib m (.KeyMsg "enter") w).model.choice = i.title ∧
    (Update lib m (.KeyMsg "enter") w).model.id = i.id ∧
    (Update lib m (.KeyMsg "enter") w).model.messages = m.messages ∧
    (Update lib m (.KeyMsg "enter") w).model.viewport = m.viewport ∧
    (Update lib m (.KeyMsg "enter") w).world.toEffects = w.toEffects := by
  have hne : ¬ ("enter" = "ctrl+c") := by decide
  simp [Update, hmode, hsel, hparse, hne]

theorem inboundLines_cons (style : Style) (msg : Msg) (rest : List Msg) :
    inboundLines style (msg :: rest) = inboundLines style [msg] ++ inboundLines style rest := by
  cases msg <;> simp [inboundLines]

/-- In chat mode one message adds its line, if it has one, at the end. -/
theorem Update_chat_messages (lib : Bubbles) (m : model) (msg : Msg) (w : World)
    (hmode : m.choice ≠ "") :
    ∃ added : List String,
      (Update lib m msg w).model.messages = m.messages ++ added ∧
      added.length = (if appendsLine msg then 1 else 0) ∧
      (inboundLines m.senderStyle [msg]).Sublist added := by
  cases msg with
  | WindowSizeMsg W H => exact ⟨[], by simp [Update, hmode], rfl, by simp [inboundLines]⟩
  | KeyMsg key =>
    have hne : ¬ ("enter" = "ctrl+c") := by decide
    by_cases h1 : key = "ctrl+c"
    · subst h1
      exact ⟨[], by simp [Update], by simp [appendsLine], by simp [inboundLines]⟩
    · by_cases h2 : key = "enter"
      · subst h2
        by_cases hv : m.textarea.Value = ""
        · exact ⟨[m.senderStyle.Render "Server: Don't send empty messages."],
            by simp [Update, hmode, hne, hv], by simp [appendsLine], by simp [inboundLines]⟩
        · exact ⟨[m.senderStyle.Render "You: " ++ m.textarea.Value],
            by simp [Update, hmode, hne, hv], by simp [appendsLine], by simp [inboundLines]⟩
      · exact ⟨[], by simp [Update, hmode, h1, h2], by simp [appendsLine, h2],
          by simp [inboundLines]⟩
  | BlinkMsg => exact ⟨[], by simp [Update], rfl, by simp [inboundLines]⟩
  | telegramUpdate u => exact ⟨_, rfl, rfl, by simp [inboundLines]⟩
  | other t => exact ⟨[], by simp [Update, hmode], rfl, by simp [inboundLines]⟩

theorem runUpdates_chat (lib : Bubbles) (m : model) (w : World) (msgs : List Msg)
    (hmode : m.choice ≠ "") :
    ∃ added : List String,
      (runUpdates lib m w msgs).1.messages = m.messages ++ added ∧
      (inboundLines m.senderStyle msgs).Sublist added ∧
      added.length = msgs.countP appendsLine := by
  induction msgs generalizing m w with
  | nil => exact ⟨[], by simp [runUpdates], by simp [inboundLines], by simp⟩
  | cons msg rest ih =>
    obtain ⟨hc, -, hst, -⟩ := Update_chat_mode lib m msg w hmode
    obtain ⟨a1, hm1, hl1, hs1⟩ := Update_chat_messages lib m msg w hmode
    obtain ⟨a2, hm2, hs2, hl2⟩ :=
      ih (Update lib m msg w).model (Update lib m msg w).world (by rw [hc]; exact hmode)
    refine ⟨a1 ++ a2, ?_, ?_, ?_⟩
    · simp only [runUpdates]
      rw [hm2, hm1, List.append_assoc]
    · rw [inboundLines_cons]
      rw [hst] at hs2
      exact hs1.append hs2
    · rw [List.length_append, hl1, hl2, List.countP_cons]
      omega

theorem runUpdates_inbound (lib : Bubbles) (m : model) (w : World) (us : List telegramUpdate) :
    (runUpdates lib m w (us.map Msg.telegramUpdate)).1.messages
      = m.messages ++ us.map (inboundLine m.senderStyle) := by
  induction us generalizing m w with
  | nil => simp [runUpdates]
  | cons u rest ih =>
    simp only [List.map_cons, runUpdates]
    rw [ih]
    simp [Update, inboundLine]

theorem Single_Update_messages (chatID : Int) (lib : Bubbles) (m : Single.model) (msg : Msg)
    (e : Effects) :
    ∃ added : List String,
      (Single.Update chatID lib m msg e).model.messages = m.messages ++ added ∧
      added.length ≤ 1 := by
  cases msg with
  | WindowSizeMsg W H => exact ⟨[], by simp [Single.Update], by simp⟩
  | KeyMsg key =>
    simp only [Single.Update]
    split_ifs
    · exact ⟨[], by simp, by simp⟩
    · exact ⟨_, rfl, by simp⟩
    · exact ⟨_, rfl, by simp⟩
    · exact ⟨[], by simp, by simp⟩
  | BlinkMsg => exact ⟨[], by simp [Single.Update], by simp⟩
  | telegramUpdate u => exact ⟨_, rfl, by simp⟩
  | other t => exact ⟨[], by simp [Single.Update], by simp⟩

/-- An update that is sent carries the text of the message and the name of
its sender. -/
theorem fetchHistory_step_send (A : Int) (E : tgbotapi.Update) (u : telegramUpdate)
    (h : fetchHistory_step A E = .send u) :
    ∃ msg sender, E.Message = some msg ∧ msg.From = some sender ∧
      u = ⟨msg.Text, sender.FirstName ++ " " ++ sender.LastName⟩ := by
  obtain ⟨M⟩ := E
  cases M with
  | none => simp [fetchHistory_step] at h
  | some msg =>
    obtain ⟨text, sender?, chat?⟩ := msg
    cases chat? with
    | none => simp [fetchHistory_step] at h
    | some chat =>
      by_cases hid : chat.ID = A
      · cases sender? with
        | none => simp [fetchHistory_step, hid] at h
        | some sender =>
          simp only [fetchHistory_step, hid, if_true, Relayed.send.injEq] at h
          exact ⟨_, sender, rfl, rfl, h.symm⟩
      · simp [fetchHistory_step, hid] at h

/-! ## C1: the relevance filter of `fetchHistory` -/

/-- C1 (as amended): for every raw event `E` whose message, when present,
carries its chat and its sender, and every value `A` of `chatId`, the loop
body of `fetchHistory` sends an update on the relay exactly when `E` has a
message and the chat id of that message equals `A`, and sends nothing
otherwise; what it sends is the text and the name `first ++ " " ++ last`;
over a finite feed the update is followed by those of the rest of the feed.
For every raw event whatever, an update is sent only if the event has a
message whose chat id equals the current `chatId`. While `chatId` still has
its initial value `0`, every such event without a message and every such
event whose chat id is not `0` is discarded. -/
theorem C1_filter (E : tgbotapi.Update) (A : Int)
    (hwf : ∀ msg, E.Message = some msg → msg.Chat ≠ none ∧ msg.From ≠ none) :
    ((∃ u, fetchHistory_step A E = .send u) ↔
      ∃ msg chat, E.Message = some msg ∧ msg.Chat = some chat ∧ chat.ID = A) ∧
    ((¬ ∃ msg chat, E.Message = some msg ∧ msg.Chat = some chat ∧ chat.ID = A) →
      fetchHistory_step A E = .skip) ∧
    (∀ msg chat sender, E.Message = some msg → msg.Chat = some chat →
      msg.From = some sender → chat.ID = A →
      fetchHistory_step A E
        = .send ⟨msg.Text, sender.FirstName ++ " " ++ sender.LastName⟩) ∧
    (∀ feed, fetchHistory ((A, E) :: feed)
        = ((fetchHistory_step A E).sent ++ (fetchHistory feed).1, (fetchHistory feed).2)) ∧
    (∀ (B : Int) (E1 : tgbotapi.Update) (u : telegramUpdate),
      fetchHistory_step B E1 = .send u →
      ∃ msg chat, E1.Message = some msg ∧ msg.Chat = some chat ∧ chat.ID = B) ∧
    ((∀ msg chat, E.Message = some msg → msg.Chat = some chat → chat.ID ≠ 0) →
      fetchHistory_step chatId_init E = .skip) := by
  have honly : ∀ (B : Int) (E1 : tgbotapi.Update) (u : telegramUpdate),
      fetchHistory_step B E1 = .send u →
      ∃ msg chat, E1.Message = some msg ∧ msg.Chat = some chat ∧ chat.ID = B := by
    intro B E1 u h
    obtain ⟨M1⟩ := E1
    cases M1 with
    | none => simp [fetchHistory_step] at h
    | some m1 =>
      obtain ⟨t1, f1, c1⟩ := m1
      cases c1 with
      | none => simp [fetchHistory_step] at h
      | some ch =>
        by_cases hid : ch.ID = B
        · exact ⟨_, ch, rfl, rfl, hid⟩
        · simp [fetchHistory_step, hid] at h
  obtain ⟨M⟩ := E
  cases M with
  | none => exact ⟨by simp [fetchHistory_step], by simp [fetchHistory_step], by simp,
      by simp [fetchHistory, fetchHistory_step, Relayed.sent], honly,
      by simp [fetchHistory_step]⟩
  | some msg =>
    obtain ⟨text, sender?, chat?⟩ := msg
    obtain ⟨hchat, hfrom⟩ := hwf _ rfl
    cases chat? with
    | none => exact absurd rfl hchat
    | some chat =>
      cases sender? with
      | none => exact absurd rfl hfrom
      | some sender =>
        refine ⟨?_, ?_, ?_, ?_, honly, ?_⟩
        · by_cases h : chat.ID = A <;> simp [fetchHistory_step, h]
        · intro h
          have h1 : ¬ chat.ID = A := fun hc => h ⟨_, chat, rfl, rfl, hc⟩
          simp [fetchHistory_step, h1]
        · intro msg1 chat1 sender1 h1 h2 h3 h4
          simp only [Option.some.injEq] at h1
          subst h1
          simp only [Option.some.injEq] at h2 h3
          subst h2 h3
          simp [fetchHistory_step, h4]
        · intro feed
          by_cases h : chat.ID = A <;> simp [fetchHistory, fetchHistory_step, h, Relayed.sent]
        · intro h
          have h1 : ¬ chat.ID = 0 := h _ chat rfl rfl
          simp [fetchHistory_step, chatId_init, h1]

/-- C1, the amended statement at a concrete event: chat id `111` against the
initial `chatId` is discarded, against `chatId = 111` it is sent. -/
theorem C1_filter_witness :
    fetchHistory_step chatId_init ⟨some ⟨"hi", some ⟨"A", "B"⟩, some ⟨111⟩⟩⟩ = .skip ∧
    fetchHistory_step 111 ⟨some ⟨"hi", some ⟨"A", "B"⟩, some ⟨111⟩⟩⟩
      = .send ⟨"hi", "A B"⟩ :=
  ⟨(C1_filter ⟨some ⟨"hi", some ⟨"A", "B"⟩, some ⟨111⟩⟩⟩ 111
      (fun msg h => by cases h; exact ⟨by decide, by decide⟩)).2.2.2.2.2
      (fun msg chat h1 h2 => by cases h1; cases h2; decide),
   (C1_filter ⟨some ⟨"hi", some ⟨"A", "B"⟩, some ⟨111⟩⟩⟩ 111
      (fun msg h => by cases h; exact ⟨by decide, by decide⟩)).2.2.1 _ _ _ rfl rfl rfl rfl⟩

/-- C1 as stated fails: with `chatId` still at its initial value, a raw event
that has a message whose chat id is `0` is sent on the relay, so not every
raw event is discarded before a selection. -/
theorem C1_counterexample :
    fetchHistory_step chatId_init ⟨some ⟨"hi", some ⟨"A", "B"⟩, some ⟨0⟩⟩⟩
      = .send ⟨"hi", "A B"⟩ ∧
    ¬ (∀ E : tgbotapi.Update, ∀ u, fetchHistory_step chatId_init E ≠ .send u) := by
  refine ⟨by decide, fun h => ?_⟩
  exact h ⟨some ⟨"hi", some ⟨"A", "B"⟩, some ⟨0⟩⟩⟩ ⟨"hi", "A B"⟩ (by decide)

/-! ## C2: the selection transition -/

/-- C2 fails on the code at the configured entries `[("", 111)]`: the initial
model is in Selecting mode with the item of that entry highlighted, and the
key `enter` sets `chatId` to `111` but leaves `choice` empty, so the mode is
still Selecting. At the entries `[("Team", 111)]` the same key gives
`chatId = 111` and `choice = "Team"`, mode Chatting, with no transcript line
and the welcome message in the viewport. -/
theorem C2_empty_title_stays_selecting :
    (initialModel [⟨"", 111⟩] 0 plainStyle).choice = "" ∧
    (initialModel [⟨"", 111⟩] 0 plainStyle).list.SelectedItem = some ⟨"", "111"⟩ ∧
    (Update keyNav (initialModel [⟨"", 111⟩] 0 plainStyle) (.KeyMsg "enter")
        ⟨⟨[], []⟩, chatId_init⟩).world.chatId = 111 ∧
    (Update keyNav (initialModel [⟨"", 111⟩] 0 plainStyle) (.KeyMsg "enter")
        ⟨⟨[], []⟩, chatId_init⟩).model.choice = "" ∧
    (Update keyNav (initialModel [⟨"Team", 111⟩] 0 plainStyle) (.KeyMsg "enter")
        ⟨⟨[], []⟩, chatId_init⟩).world.chatId = 111 ∧
    (Update keyNav (initialModel [⟨"Team", 111⟩] 0 plainStyle) (.KeyMsg "enter")
        ⟨⟨[], []⟩, chatId_init⟩).model.choice = "Team" ∧
    (Update keyNav (initialModel [⟨"Team", 111⟩] 0 plainStyle) (.KeyMsg "enter")
        ⟨⟨[], []⟩, chatId_init⟩).model.messages = [] ∧
    (Update keyNav (initialModel [⟨"Team", 111⟩] 0 plainStyle) (.KeyMsg "enter")
        ⟨⟨[], []⟩, chatId_init⟩).model.viewport.content = welcome := by
  decide

/-! ## C3: a selection whose identifier does not parse -/

/-- C4: for every model of `src/main/main.go` in Chatting mode whose composer
is empty, the key `enter` puts exactly one line at the end of the transcript,
the rendered notice `Server: Don't send empty messages.`, calls
`telegramBotSendText` not at all and leaves `choice` and `chatId` (the whole
world) as they were; `Update` of `src/main.go` does the same for every model
with an empty composer. -/
theorem C4_empty_submit (lib : Bubbles) (m : model) (w : World)
    (chatID : Int) (ms : Single.model) (es : Effects)
    (hmode : m.choice ≠ "") (hv : m.textarea.Value = "") (hvs : ms.textarea.Value = "") :
    ((Update lib m (.KeyMsg "enter") w).model.messages
        = m.messages ++ [m.senderStyle.Render "Server: Don't send empty messages."] ∧
      (Update lib m (.KeyMsg "enter") w).world.sent = w.sent ∧
      (Update lib m (.KeyMsg "enter") w).world = w ∧
      (Update lib m (.KeyMsg "enter") w).model.choice = m.choice ∧
      (Update lib m (.KeyMsg "enter") w).world.chatId = w.chatId ∧
      (Update lib m (.KeyMsg "enter") w).cmd = .nil) ∧
    ((Single.Update chatID lib ms (.KeyMsg "enter") es).model.messages
        = ms.messages ++ [ms.senderStyle.Render "Server: Don't send empty messages."] ∧
      (Single.Update chatID lib ms (.KeyMsg "enter") es).effects = es ∧
      (Single.Update chatID lib ms (.KeyMsg "enter") es).cmd = .nil) := by
  have hne : ¬ ("enter" = "ctrl+c") := by decide
  have hne2 : ¬ ("enter" = "esc") := by decide
  constructor
  · simp [Update, hmode, hv, hne]
  · simp [Single.Update, hvs, hne, hne2]

/-- C4 with the plain style: in Chatting mode with active id `111` and an
empty composer the transcript gains exactly `Server: Don't send empty
messages.` and nothing is sent. -/
theorem C4_empty_submit_witness :
    (Update keyNav { initialModel [⟨"Team", 111⟩] 0 plainStyle with choice := "Team" }
        (.KeyMsg "enter") ⟨⟨[], []⟩, 111⟩).model.messages
      = ["Server: Don't send empty messages."] ∧
    (Update keyNav { initialModel [⟨"Team", 111⟩] 0 plainStyle with choice := "Team" }
        (.KeyMsg "enter") ⟨⟨[], []⟩, 111⟩).world.sent = [] ∧
    (Single.Update 111 keyNav (Single.initialModel 0 plainStyle)
        (.KeyMsg "enter") ⟨[], []⟩).model.messages
      = ["Server: Don't send empty messages."] :=
  have h := C4_empty_submit keyNav
    { initialModel [⟨"Team", 111⟩] 0 plainStyle with choice := "Team" } ⟨⟨[], []⟩, 111⟩
    111 (Single.initialModel 0 plainStyle) ⟨[], []⟩ (by decide) rfl rfl
  ⟨h.1.1, h.1.2.1, h.2.1⟩

/-! ## C5: submitting a non-empty composer -/

/-- C5: for every model in Chatting mode with active identifier `w.chatId` and
a non-empty composer text `v`, the key `enter` puts exactly one line at the end
of the transcript, the rendered label `You: ` followed by `v`, calls
`telegramBotSendText` exactly once, with `(w.chatId, v)`, and leaves the
composer empty; mode and active identifier stay. -/
theorem C5_submit (lib : Bubbles) (m : model) (w : World)
    (hmode : m.choice ≠ "") (hv : m.textarea.Value ≠ "") :
    (Update lib m (.KeyMsg "enter") w).model.messages
      = m.messages ++ [m.senderStyle.Render "You: " ++ m.textarea.Value] ∧
    (Update lib m (.KeyMsg "enter") w).world.sent
      = w.sent ++ [(w.chatId, m.textarea.Value)] ∧
    (Update lib m (.KeyMsg "enter") w).model.textarea.Value = "" ∧
    (Update lib m (.KeyMsg "enter") w).model.choice = m.choice ∧
    (Update lib m (.KeyMsg "enter") w).world.chatId = w.chatId ∧
    (Update lib m (.KeyMsg "enter") w).world.printed = w.printed := by
  have hne : ¬ ("enter" = "ctrl+c") := by decide
  simp only [Update, hne, hmode, hv, ne_eq, not_false_eq_true, if_true, if_false]
  simp [telegramBotSendText, textarea.Model.Reset, textarea.Model.Value]

/-- C5 at active id `111` and composer text `hello`, plain style: the line is
`You: hello`, the one call is `send(111, "hello")`, the composer is empty. -/
theorem C5_submit_witness :
    (Update keyNav
        { initialModel [⟨"Team", 111⟩] 0 plainStyle with
          choice := "Team", textarea := { initialTextarea with value := "hello" } }
        (.KeyMsg "enter") ⟨⟨[], []⟩, 111⟩).model.messages = ["You: hello"] ∧
    (Update keyNav
        { initialModel [⟨"Team", 111⟩] 0 plainStyle with
          choice := "Team", textarea := { initialTextarea with value := "hello" } }
        (.KeyMsg "enter") ⟨⟨[], []⟩, 111⟩).world.sent = [(111, "hello")] ∧
    (Update keyNav
        { initialModel [⟨"Team", 111⟩] 0 plainStyle with
          choice := "Team", textarea := { initialTextarea with value := "hello" } }
        (.KeyMsg "enter") ⟨⟨[], []⟩, 111⟩).model.textarea.Value = "" :=
  have h := C5_submit keyNav
    { initialModel [⟨"Team", 111⟩] 0 plainStyle with
      choice := "Team", textarea := { initialTextarea with value := "hello" } }
    ⟨⟨[], []⟩, 111⟩ (by decide) (by decide)
  ⟨h.1, h.2.1, h.2.2.1⟩

/-! ## C6: an inbound update delivered in Selecting mode -/

/-- C6 (as amended): for every model, in Selecting mode as in Chatting mode,
and every delivered `telegramUpdate`, `Update` returns the waiter re-armed on
the channel of the model, puts the line of the update at the end of the
transcript and sets the viewport to the joined transcript scrolled to the
bottom; the composer, the list, `choice`, `id`, the style, the channel, `err`
and the world (`chatId`, effects) are unchanged. -/
theorem C6_inbound_any_mode (lib : Bubbles) (m : model) (u : telegramUpdate) (w : World) :
    (Update lib m (.telegramUpdate u) w).cmd = .waitForActivity m.sub ∧
    (Update lib m (.telegramUpdate u) w).model.messages
      = m.messages ++ [m.senderStyle.Render (u.Name ++ ": ") ++ u.Content] ∧
    (Update lib m (.telegramUpdate u) w).model.viewport
      = (m.viewport.SetContent (String.intercalate "\n"
          (m.messages ++ [m.senderStyle.Render (u.Name ++ ": ") ++ u.Content]))).GotoBottom ∧
    (Update lib m (.telegramUpdate u) w).model.textarea = m.textarea ∧
    (Update lib m (.telegramUpdate u) w).model.list = m.list ∧
    (Update lib m (.telegramUpdate u) w).model.choice = m.choice ∧
    (Update lib m (.telegramUpdate u) w).model.id = m.id ∧
    (Update lib m (.telegramUpdate u) w).model.senderStyle = m.senderStyle ∧
    (Update lib m (.telegramUpdate u) w).model.sub = m.sub ∧
    (Update lib m (.telegramUpdate u) w).model.err = m.err ∧
    (Update lib m (.telegramUpdate u) w).world = w :=
  ⟨rfl, rfl, rfl, rfl, rfl, rfl, rfl, rfl, rfl, rfl, rfl⟩

/-- C6 as stated fails: the initial model is in Selecting mode with an empty
transcript, and a delivered update changes the transcript to `["A B: hi"]`
and the viewport content to that line. -/
theorem C6_counterexample :
    (initialModel [⟨"Team", 111⟩] 0 plainStyle).choice = "" ∧
    (initialModel [⟨"Team", 111⟩] 0 plainStyle).messages = [] ∧
    (Update keyNav (initialModel [⟨"Team", 111⟩] 0 plainStyle)
        (.telegramUpdate ⟨"hi", "A B"⟩) ⟨⟨[], []⟩, chatId_init⟩).model.messages = ["A B: hi"] ∧
    (Update keyNav (initialModel [⟨"Team", 111⟩] 0 plainStyle)
        (.telegramUpdate ⟨"hi", "A B"⟩) ⟨⟨[], []⟩, chatId_init⟩).model.viewport.content
      = "A B: hi" ∧
    (Update keyNav (initialModel [⟨"Team", 111⟩] 0 plainStyle)
        (.telegramUpdate ⟨"hi", "A B"⟩) ⟨⟨[], []⟩, chatId_init⟩).model.choice = "" := by
  decide

/-! ## C7: single activation -/

/-- C7 fails on the code at the configured entries `[("", 111), ("Team", 222)]`:
from `initialModel`, a resize and the keys `enter`, `down`, `enter` take
`chatId` from `0` to `111` and then to `222`, two changes; the first `enter`
sets `chatId` and leaves `choice` empty, so the second `enter` selects
again. -/
theorem C7_two_activations :
    chatIdTrace keyNav (initialModel [⟨"", 111⟩, ⟨"Team", 222⟩] 0 plainStyle)
        ⟨⟨[], []⟩, chatId_init⟩
        [.WindowSizeMsg 80 24, .KeyMsg "enter", .KeyMsg "down", .KeyMsg "enter"]
      = [0, 0, 111, 111, 222] ∧
    changes (chatIdTrace keyNav (initialModel [⟨"", 111⟩, ⟨"Team", 222⟩] 0 plainStyle)
        ⟨⟨[], []⟩, chatId_init⟩
        [.WindowSizeMsg 80 24, .KeyMsg "enter", .KeyMsg "down", .KeyMsg "enter"]) = 2 ∧
    (runUpdates keyNav (initialModel [⟨"", 111⟩, ⟨"Team", 222⟩] 0 plainStyle)
        ⟨⟨[], []⟩, chatId_init⟩ [.WindowSizeMsg 80 24, .KeyMsg "enter"]).1.choice = "" := by
  decide

/-! ## C8: order and format of inbound lines -/

/-- C8: for every model in Chatting mode, (1) one inbound update puts exactly
the line `Render(name ++ ": ") ++ text` at the end of the transcript and
returns the waiter re-armed on the channel of the model; (2) after any finite
sequence of messages the transcript is the old one followed by added lines,
the lines of the inbound updates of the sequence are a subsequence of the
added lines in their order of delivery, and the number of added lines is the
number of inbound updates and `enter` keys, so each of them adds one line and
nothing else adds any; (3) a sequence of inbound updates alone adds exactly
their lines in order; (4) the name of an update sent by `fetchHistory` is
`first ++ " " ++ last` and its content the text of the message, for the
matching event that carries a sender and for every update that is sent. -/
theorem C8_inbound_order (lib : Bubbles) (m : model) (w : World) (hmode : m.choice ≠ "") :
    (∀ u : telegramUpdate,
      (Update lib m (.telegramUpdate u) w).model.messages
        = m.messages ++ [m.senderStyle.Render (u.Name ++ ": ") ++ u.Content] ∧
      (Update lib m (.telegramUpdate u) w).cmd = .waitForActivity m.sub ∧
      (Update lib m (.telegramUpdate u) w).model.choice = m.choice) ∧
    (∀ msgs : List Msg, ∃ added : List String,
      (runUpdates lib m w msgs).1.messages = m.messages ++ added ∧
      (inboundLines m.senderStyle msgs).Sublist added ∧
      added.length = msgs.countP appendsLine) ∧
    (∀ us : List telegramUpdate,
      (runUpdates lib m w (us.map Msg.telegramUpdate)).1.messages
        = m.messages ++ us.map (fun u => m.senderStyle.Render (u.Name ++ ": ") ++ u.Content)) ∧
    (∀ (A : Int) (text : String) (sender : tgbotapi.User) (chat : tgbotapi.Chat),
      chat.ID = A →
      fetchHistory_step A ⟨some ⟨text, some sender, some chat⟩⟩
        = .send ⟨text, sender.FirstName ++ " " ++ sender.LastName⟩) ∧
    (∀ (A : Int) (E : tgbotapi.Update) (u : telegramUpdate),
      fetchHistory_step A E = .send u →
      ∃ msg sender, E.Message = some msg ∧ msg.From = some sender ∧
        u = ⟨msg.Text, sender.FirstName ++ " " ++ sender.LastName⟩) := by
  refine ⟨fun u => ⟨rfl, rfl, rfl⟩, fun msgs => runUpdates_chat lib m w msgs hmode, ?_, ?_, ?_⟩
  · intro us
    exact runUpdates_inbound lib m w us
  · intro A text sender chat h
    simp [fetchHistory_step, h]
  · intro A E u h
    exact fetchHistory_step_send A E u h

/-- C8 at active id `111`, plain style: the raw event with first name `A`,
last name `B` and text `hi` is relayed and appends the line `A B: hi`; two
inbound updates around a submit keep their order. -/
theorem C8_inbound_order_witness :
    fetchHistory_step 111 ⟨some ⟨"hi", some ⟨"A", "B"⟩, some ⟨111⟩⟩⟩
      = .send ⟨"hi", "A B"⟩ ∧
    (Update keyNav { initialModel [⟨"Team", 111⟩] 0 plainStyle with choice := "Team" }
        (.telegramUpdate ⟨"hi", "A B"⟩) ⟨⟨[], []⟩, 111⟩).model.messages = ["A B: hi"] ∧
    (runUpdates keyNav { initialModel [⟨"Team", 111⟩] 0 plainStyle with choice := "Team" }
        ⟨⟨[], []⟩, 111⟩
        [.telegramUpdate ⟨"hi", "A B"⟩, .KeyMsg "o", .KeyMsg "k", .KeyMsg "enter",
          .telegramUpdate ⟨"yo", "C D"⟩]).1.messages
      = ["A B: hi", "You: ok", "C D: yo"] :=
  have h := C8_inbound_order keyNav
    { initialModel [⟨"Team", 111⟩] 0 plainStyle with choice := "Team" } ⟨⟨[], []⟩, 111⟩
    (by decide)
  ⟨h.2.2.2.1 111 "hi" ⟨"A", "B"⟩ ⟨111⟩ rfl, (h.1 ⟨"hi", "A B"⟩).1, by decide⟩

/-! ## C9: the transcript is append-only -/

/-- C9: for every model and every message (key, resize, cursor blink, inbound
update, any other), in `src/main/main.go` and in `src/main.go`, the transcript
of the model returned by `Update` is the transcript of the input model
followed by at most one line: the old transcript is a prefix of the new one,
so no line is removed, rewritten or reordered. -/
theorem C9_append_only (lib : Bubbles) (m : model) (msg : Msg) (w : World)
    (chatID : Int) (ms : Single.model) (es : Effects) :
    (∃ added : List String,
      (Update lib m msg w).model.messages = m.messages ++ added ∧ added.length ≤ 1) ∧
    m.messages <+: (Update lib m msg w).model.messages ∧
    (∃ added : List String,
      (Single.Update chatID lib ms msg es).model.messages = ms.messages ++ added ∧
      added.length ≤ 1) ∧
    ms.messages <+: (Single.Update chatID lib ms msg es).model.messages := by
  obtain ⟨a, ha, hl⟩ := Update_messages lib m msg w
  obtain ⟨b, hb, hk⟩ := Single_Update_messages chatID lib ms msg es
  exact ⟨⟨a, ha, hl⟩, ⟨a, ha.symm⟩, ⟨b, hb, hk⟩, ⟨b, hb.symm⟩⟩

/-! ## C10: round trip of the identifier -/

/-- C10: for every 64-bit signed integer `id`, the decimal text
`fmt.Sprintf("%d", id)` is parsed by `strconv.ParseInt(s, 10, 64)` without
error to `id`; hence for entries with `int64` identifiers every item built by
`initialModel` parses, and the selection transition on a highlighted item of
that form sets `chatId` to the identifier and prints no error. -/
theorem C10_id_round_trip (id : Int) (hlo : -(2 : Int) ^ 63 ≤ id) (hhi : id < 2 ^ 63)
    (chatIDs : List config.ChatID)
    (hrange : ∀ e ∈ chatIDs, -(2 : Int) ^ 63 ≤ e.Id ∧ e.Id < 2 ^ 63) :
    ParseInt (Sprintf_d id) = .ok id ∧
    (∀ (sub : Chan) (style : Style), ∀ it ∈ (initialModel chatIDs sub style).list.items,
      ∃ e ∈ chatIDs, it = ⟨e.Title, Sprintf_d e.Id⟩ ∧ ParseInt it.id = .ok e.Id) ∧
    (∀ (lib : Bubbles) (m : model) (w : World) (title : String), m.choice = "" →
      m.list.SelectedItem = some ⟨title, Sprintf_d id⟩ →
      (Update lib m (.KeyMsg "enter") w).world.chatId = id ∧
      (Update lib m (.KeyMsg "enter") w).world.printed = w.printed) := by
  have hp := ParseInt_Sprintf_d id hlo hhi
  refine ⟨hp, ?_, ?_⟩
  · intro sub style it hit
    rw [initialModel_items] at hit
    obtain ⟨e, he, rfl⟩ := List.mem_map.mp hit
    exact ⟨e, he, rfl, ParseInt_Sprintf_d e.Id (hrange e he).1 (hrange e he).2⟩
  · intro lib m w title hmode hsel
    have hne : ¬ ("enter" = "ctrl+c") := by decide
    simp [Update, hmode, hsel, hp, hne]

/-- C10 at the two ends of `int64` and at the entries `[("Team", 111)]`. -/
theorem C10_id_round_trip_witness :
    ParseInt (Sprintf_d (-9223372036854775808)) = .ok (-9223372036854775808) ∧
    ParseInt (Sprintf_d 9223372036854775807) = .ok 9223372036854775807 ∧
    Sprintf_d (-9223372036854775808) = "-9223372036854775808" ∧
    ParseInt "9223372036854775808" = .error ⟨"9223372036854775808", .ErrRange⟩ :=
  ⟨(C10_id_round_trip (-9223372036854775808) (by decide) (by decide) [⟨"Team", 111⟩]
      (by decide)).1,
   (C10_id_round_trip 9223372036854775807 (by decide) (by decide) [⟨"Team", 111⟩]
      (by decide)).1,
   by decide, by decide⟩

end TelegramBot
